import Mathlib

/-!
Shallow embedding of the BlockTracker repository (a static blockchain explorer)
and proofs about it.  The embedding covers:

* `docs/utils/helpers.js` — address validation, address shortening, HTML
  escaping, and the AI prompt formatter `generateAIPrompt`;
* `src/js/web3-service.js` — the `Web3Service` class: `hasApiKeys`,
  `initialize`, `getWalletInfo`, `getRecentTransactions`, `getTokenBalances`,
  `getContractInfo`, `getNFTInfo`, `getENSName`;
* the per-mode orchestration `analyzeWallet` / `analyzeContract` /
  `analyzeNFT` from the main UI module.

Network calls are modelled by passing their outcomes as explicit arguments
(`Except String _` for calls that can throw, an oracle function for the
per-token `balanceOf` calls).  JavaScript numbers crossing a display boundary
(`parseFloat(...).toFixed(4)`) are modelled by exact rational rounding on a
scale of 10^4, which agrees with the JavaScript double arithmetic on all the
concrete values considered here.
-/

/-- Character class `[a-fA-F0-9]` of the address regex. -/
def isHexDigit (c : Char) : Bool :=
  (('a' ≤ c && c ≤ 'f') || ('A' ≤ c && c ≤ 'F') || ('0' ≤ c && c ≤ '9'))

/-- Anchored match of `/^0x[a-fA-F0-9]{40}$/` on a list of characters. -/
def isValidAddressChars : List Char → Bool
  | c0 :: c1 :: rest =>
      c0 == '0' && c1 == 'x' && rest.length == 40 && rest.all isHexDigit
  | _ => false

/-- Embeds `isValidAddress` from `docs/utils/helpers.js`:
`regex = /^0x[a-fA-F0-9]{40}$/; return regex.test(address)`. -/
def isValidAddress (address : String) : Bool :=
  isValidAddressChars address.data

/-- The canonical address pattern in the words of the specification (section 3):
literal `0x` followed by exactly 40 hexadecimal characters, total length 42.
Stated independently of `isValidAddress` so the two can be compared. -/
def canonicalAddressPattern (s : String) : Prop :=
  s.data.length = 42 ∧ s.data.take 2 = ['0', 'x'] ∧
    ∀ c ∈ s.data.drop 2, isHexDigit c = true

/-- JavaScript `s.slice(-n)`: for `n = 0` this is `s.slice(0)`, i.e. the whole
string; otherwise the last `n` characters. -/
def jsSliceFromEnd (s : String) (n : Nat) : String :=
  if n = 0 then s else s.takeRight n

/-- Embeds `shortenAddress` from `docs/utils/helpers.js`; the source gives
`startChars` and `endChars` the default values 6 and 4. -/
def shortenAddress (address : String) (startChars endChars : Nat) : String :=
  if address = "" then ""
  else if address.length ≤ startChars + endChars then address
  else address.take startChars ++ "..." ++ jsSliceFromEnd address endChars

/-- The double-quote character, kept symbolic to avoid escapes. -/
def quoteChar : Char := Char.ofNat 34

/-- The single-quote (apostrophe) character. -/
def apostropheChar : Char := Char.ofNat 39

/-- Embeds the `escapeMap` lookup of `escapeHTML`: the replacement for one
matched character of the class `[&<>"']`; other characters are untouched. -/
def escapeChar (c : Char) : String :=
  if c = '&' then "&amp;"
  else if c = '<' then "&lt;"
  else if c = '>' then "&gt;"
  else if c = quoteChar then "&quot;"
  else if c = apostropheChar then "&#39;"
  else String.singleton c

/-- Character-by-character application of `escapeChar`, the effect of
`str.replace(/[&<>"']/g, char => escapeMap[char])`. -/
def escapeList : List Char → List Char
  | [] => []
  | c :: cs => (escapeChar c).data ++ escapeList cs

/-- Embeds `escapeHTML` from `docs/utils/helpers.js`. -/
def escapeHTML (str : String) : String :=
  ⟨escapeList str.data⟩

/-- Output predicate for claim C10: none of the four dangerous characters
occurs in the list. -/
def forbiddenFree (l : List Char) : Prop :=
  ∀ c ∈ l, c ≠ '<' ∧ c ≠ '>' ∧ c ≠ quoteChar ∧ c ≠ apostropheChar

/-- The five entities that `escapeHTML` can emit, as character lists. -/
def htmlEntities : List (List Char) :=
  ["&amp;".data, "&lt;".data, "&gt;".data, "&quot;".data, "&#39;".data]

/-- Output predicate for claim C10: every occurrence of the ampersand starts
one of the five entities of the escape map. -/
def ampOk (l : List Char) : Prop :=
  ∀ i : Nat, l.get? i = some '&' → ∃ e ∈ htmlEntities, ∃ t, l.drop i = e ++ t

theorem isValidAddressChars_eq_true {l : List Char}
    (h : isValidAddressChars l = true) :
    l.length = 42 ∧ l.take 2 = ['0', 'x'] ∧ ∀ c ∈ l.drop 2, isHexDigit c = true := by
  match l with
  | [] => simp [isValidAddressChars] at h
  | [c0] => simp [isValidAddressChars] at h
  | c0 :: c1 :: rest =>
    simp only [isValidAddressChars, Bool.and_eq_true, beq_iff_eq,
      List.all_eq_true] at h
    obtain ⟨⟨⟨h0, h1⟩, hlen⟩, hall⟩ := h
    subst h0; subst h1
    refine ⟨by simpa using hlen, rfl, ?_⟩
    simpa using hall

/-- Claim C6: every string that does not match the canonical pattern
(`0x` followed by exactly 40 hexadecimal characters) is rejected by
`isValidAddress`. -/
theorem isValidAddress_rejects_nonmatching (s : String)
    (h : ¬ canonicalAddressPattern s) : isValidAddress s = false := by
  cases hv : isValidAddress s with
  | false => rfl
  | true =>
    exact absurd (isValidAddressChars_eq_true hv) h

/-- Witness for claim C6 at the concrete non-matching input "0xhello". -/
theorem isValidAddress_rejects_nonmatching_witness :
    isValidAddress "0xhello" = false :=
  isValidAddress_rejects_nonmatching "0xhello" (by
    intro hpat
    have := hpat.1
    simp at this)

/-- Claim C9: `shortenAddress` at the default parameters 6 and 4 returns the
empty string on the (only) falsy string, returns strings of length at most
10 unchanged, and otherwise keeps the first 6 and last 4 characters around
an ellipsis. -/
theorem shortenAddress_cases (a : String) :
    (a = "" → shortenAddress a 6 4 = "") ∧
    (a.length ≤ 10 → shortenAddress a 6 4 = a) ∧
    (10 < a.length → shortenAddress a 6 4 = a.take 6 ++ "..." ++ a.takeRight 4) := by
  refine ⟨?_, ?_, ?_⟩
  · intro h; subst h; rfl
  · intro hlen
    by_cases he : a = ""
    · subst he; rfl
    · simp [shortenAddress, he, hlen]
  · intro hlen
    have he : a ≠ "" := by
      intro h; subst h; simp [String.length] at hlen
    have hnot : ¬ a.length ≤ 10 := by omega
    simp [shortenAddress, he, hnot, jsSliceFromEnd]

/-- Witness for claim C9, discharging each branch hypothesis at a concrete
input. -/
theorem shortenAddress_cases_witness :
    shortenAddress "" 6 4 = "" ∧
    shortenAddress "0x1234" 6 4 = "0x1234" ∧
    shortenAddress "0xd8dA6BF26964aF9D7eEd9e03E53415D37aA96045" 6 4 =
      "0xd8dA" ++ "..." ++ "6045" := by
  refine ⟨(shortenAddress_cases "").1 rfl,
          (shortenAddress_cases "0x1234").2.1 (by decide), ?_⟩
  have h := (shortenAddress_cases "0xd8dA6BF26964aF9D7eEd9e03E53415D37aA96045").2.2
    (by decide)
  rw [h]
  rfl

theorem ampOk_nil : ampOk [] := by
  intro i hi
  simp [List.get?] at hi

theorem ampOk_cons_ne {c : Char} {r : List Char} (hc : c ≠ '&')
    (hr : ampOk r) : ampOk (c :: r) := by
  intro i hi
  match i with
  | 0 =>
    simp [List.get?] at hi
    exact absurd hi hc
  |
    i + 1 =>
    simp only [List.get?] at hi
    obtain ⟨e, he, t, ht⟩ := hr i hi
    exact ⟨e, he, t, by simpa using ht⟩

theorem ampOk_append_ne {m r : List Char} (hm : ∀ c ∈ m, c ≠ '&')
    (hr : ampOk r) : ampOk (m ++ r) := by
  induction m with
  | nil => simpa using hr
  | cons c cs ih =>
    have := ampOk_cons_ne (hm c (by simp)) (ih (fun c hc => hm c (by simp [hc])))
    simpa using this

theorem ampOk_amp_cons {tail r : List Char} (ht : ∀ c ∈ tail, c ≠ '&')
    (hmem : ('&' :: tail) ∈ htmlEntities) (hr : ampOk r) :
    ampOk (('&' :: tail) ++ r) := by
  intro i hi
  match i with
  | 0 =>
    exact ⟨'&' :: tail, hmem, r, by simp⟩
  | i + 1 =>
    simp only [List.cons_append, List.get?] at hi
    obtain ⟨e, he, t, hdrop⟩ := ampOk_append_ne ht hr i hi
    exact ⟨e, he, t, by simpa using hdrop⟩

theorem escapeChar_spec (c : Char) :
    (∃ tail, (escapeChar c).data = '&' :: tail ∧ ('&' :: tail) ∈ htmlEntities ∧
      ∀ d ∈ tail, d ≠ '&') ∨
    ((escapeChar c).data = [c] ∧ c ≠ '&' ∧ c ≠ '<' ∧ c ≠ '>' ∧
      c ≠ quoteChar ∧ c ≠ apostropheChar) := by
  by_cases h1 : c = '&'
  · subst h1; exact Or.inl ⟨"amp;".data, by decide, by decide, by decide⟩
  · by_cases h2 : c = '<'
    · subst h2; exact Or.inl ⟨"lt;".data, by decide, by decide, by decide⟩
    · by_cases h3 : c = '>'
      · subst h3; exact Or.inl ⟨"gt;".data, by decide, by decide, by decide⟩
      · by_cases h4 : c = quoteChar
        · subst h4; exact Or.inl ⟨"quot;".data, by decide, by decide, by decide⟩
        · by_cases h5 : c = apostropheChar
          · subst h5; exact Or.inl ⟨"#39;".data, by decide, by decide, by decide⟩
          · refine Or.inr ⟨?_, h1, h2, h3, h4, h5⟩
            simp only [escapeChar, if_neg h1, if_neg h2, if_neg h3, if_neg h4,
              if_neg h5]
            rfl

theorem entity_chars_not_forbidden :
    ∀ e ∈ htmlEntities,
      ∀ d ∈ e, d ≠ '<' ∧ d ≠ '>' ∧ d ≠ quoteChar ∧ d ≠ apostropheChar := by
  decide

theorem ampOk_escapeList (cs : List Char) : ampOk (escapeList cs) := by
  induction cs with
  | nil => exact ampOk_nil
  | cons c cs ih =>
    show ampOk ((escapeChar c).data ++ escapeList cs)
    rcases escapeChar_spec c with ⟨tail, heq, hmem, htail⟩ | ⟨heq, hne, -⟩
    · rw [heq]
      exact ampOk_amp_cons htail hmem ih
    · rw [heq]
      exact ampOk_cons_ne hne ih

theorem forbiddenFree_escapeList (cs : List Char) :
    forbiddenFree (escapeList cs) := by
  induction cs with
  | nil => intro c hc; simp [escapeList] at hc
  | cons c cs ih =>
    intro d hd
    simp only [escapeList, List.mem_append] at hd
    rcases hd with hd | hd
    · rcases escapeChar_spec c with ⟨tail, heq, hmem, -⟩ | ⟨heq, -, h2, h3, h4, h5⟩
      · rw [heq] at hd
        exact entity_chars_not_forbidden _ hmem d hd
      · rw [heq] at hd
        simp only [List.mem_singleton] at hd
        subst hd
        exact ⟨h2, h3, h4, h5⟩
    · exact ih d hd

/-- Claim C10: the output of `escapeHTML` contains none of the characters
`<`, `>`, double quote or single quote, and every ampersand in the output
starts one of the five entities of the escape map. -/
theorem escapeHTML_output_safe (s : String) :
    forbiddenFree (escapeHTML s).data ∧ ampOk (escapeHTML s).data :=
  ⟨forbiddenFree_escapeList s.data, ampOk_escapeList s.data⟩

/-- Pads a digit string with leading zeros up to length `n`. -/
def padZeros (n : Nat) (s : String) : String :=
  String.mk (List.replicate (n - s.length) '0') ++ s

/-- Drops trailing zeros from a fractional digit string, keeping at least one
digit, as `ethers.formatUnits` renders fractions (`"1.5"`, `"1.0"`). -/
def trimFrac (s : String) : String :=
  let t := s.dropRightWhile (fun c => c = '0')
  if t = "" then "0" else t

/-- Embeds `ethers.formatUnits(value, decimals)` for a non-negative integer:
the exact decimal string of `value / 10 ^ decimals`. -/
def formatUnits (value : Nat) (decimals : Nat) : String :=
  let base := 10 ^ decimals
  Nat.repr (value / base) ++ "." ++
    trimFrac (padZeros decimals (Nat.repr (value % base)))

/-- Value of `value / 10 ^ decimals` rounded to four decimal places, on a
scale of `10 ^ 4`.  This models the composite
`parseFloat(ethers.formatUnits(value, decimals)).toFixed(4)` with exact
rational arithmetic (round half up). -/
def displayScaled4 (value : Nat) (decimals : Nat) : Nat :=
  (2 * value * 10000 + 10 ^ decimals) / (2 * 10 ^ decimals)

/-- Renders a scale-`10 ^ 4` value as a fixed four-decimal string, the shape
`toFixed(4)` produces. -/
def toFixed4 (scaled : Nat) : String :=
  Nat.repr (scaled / 10000) ++ "." ++ padZeros 4 (Nat.repr (scaled % 10000))

/-- Reads a decimal digit string as a number. -/
def parseDigits (s : String) : Nat :=
  s.data.foldl (fun acc c => acc * 10 + (c.toNat - 48)) 0

/-- Splits a character list at the first dot. -/
def splitDot : List Char → List Char × List Char
  | [] => ([], [])
  | c :: cs =>
      if c = '.' then ([], cs)
      else
        let p := splitDot cs
        (c :: p.1, p.2)

/-- Value of JavaScript `parseFloat` on a `"digits.digits"` string, on a scale
of `10 ^ 4`.  Exact for the `toFixed(4)` strings this development compares. -/
def parseFixed4 (s : String) : Nat :=
  let p := splitDot s.data
  let f4 := p.2.take 4
  parseDigits (String.mk p.1) * 10000 +
    parseDigits (String.mk f4) * 10 ^ (4 - f4.length)

/-- Etherscan JSON envelope `{status, message, result}` with an array result. -/
structure EtherscanEnvelope (ρ : Type) where
  status : String
  message : String
  result : List ρ
deriving DecidableEq

/-- Outcome of one indexer request: `failure` models a thrown `fetch` /
JSON-parse error, `success` a decoded envelope. -/
inductive IndexerResponse (ρ : Type) where
  | failure (msg : String)
  | success (env : EtherscanEnvelope ρ)
deriving DecidableEq

/-- Raw transaction record of the Etherscan `txlist` action, with the fields
`getRecentTransactions` reads.  `toAddr` is the `to` field (empty string for
contract creation); `value` is the wei amount carried as an integer. -/
structure RawTx where
  hash : String
  fromAddr : String
  toAddr : String
  value : Nat
  timeStamp : Nat
  blockNumber : String
  isError : String
deriving DecidableEq

/-- Formatted transaction as produced by `getRecentTransactions`. -/
structure TxRecord where
  hash : String
  fromAddr : String
  toAddr : String
  value : String
  timestamp : Nat
  blockNumber : String
  isError : Bool
deriving DecidableEq

/-- Embeds `getRecentTransactions` from `src/js/web3-service.js`: a transport
failure or a soft failure (`status !== '1'`) yields `[]`; otherwise each raw
record is formatted for display. -/
def getRecentTransactions (resp : IndexerResponse RawTx) : List TxRecord :=
  match resp with
  | .failure _ => []
  | .success data =>
    if data.status ≠ "1" then []
    else
      data.result.map (fun tx =>
        { hash := tx.hash
          fromAddr := tx.fromAddr
          toAddr := if tx.toAddr = "" then "Contract Creation" else tx.toAddr
          value := formatUnits tx.value 18 ++ " ETH"
          timestamp := tx.timeStamp
          blockNumber := tx.blockNumber
          isError := tx.isError = "1" })

/-- Raw record of the Etherscan `tokentx` action, with the fields
`getTokenBalances` reads (`tokenDecimal` already parsed to a number). -/
structure RawTokenTx where
  contractAddress : String
  tokenName : String
  tokenSymbol : String
  tokenDecimal : Nat
deriving DecidableEq

/-- Token metadata collected in the `tokenMap`. -/
structure TokenMeta where
  contractAddress : String
  name : String
  symbol : String
  decimals : Nat
deriving DecidableEq

/-- One entry of the token-holdings list.  The source stores
`balance.toString()` in `rawBalance`; it is modelled as the integer itself. -/
structure TokenHolding where
  contractAddress : String
  name : String
  symbol : String
  decimals : Nat
  balance : String
  rawBalance : Nat
deriving DecidableEq

/-- First-seen deduplication of transfer records by token contract: the
insertion-order `Map` of `getTokenBalances`. -/
def uniqueTokens (txs : List RawTokenTx) : List TokenMeta :=
  txs.foldl (fun acc tx =>
    if acc.any (fun t => t.contractAddress = tx.contractAddress) then acc
    else acc ++ [{ contractAddress := tx.contractAddress, name := tx.tokenName,
                   symbol := tx.tokenSymbol, decimals := tx.tokenDecimal }]) []

/-- Comparator order of `sort((a, b) => parseFloat(b.balance) - parseFloat(a.balance))`:
`a` may precede `b` when its parsed balance is at least as large. -/
def tokenGE (a b : TokenHolding) : Prop :=
  parseFixed4 b.balance ≤ parseFixed4 a.balance

instance : DecidableRel tokenGE :=
  fun a b => Nat.decLe (parseFixed4 b.balance) (parseFixed4 a.balance)

instance : IsTotal TokenHolding tokenGE :=
  ⟨fun a b => (Nat.le_total (parseFixed4 b.balance) (parseFixed4 a.balance)).elim
    Or.inl Or.inr⟩

instance : IsTrans TokenHolding tokenGE :=
  ⟨fun _ _ _ hab hbc => Nat.le_trans hbc hab⟩

/-- Embeds `getTokenBalances` from `src/js/web3-service.js`.  The per-token
`balanceOf` network calls are modelled by the oracle `balanceOf`, with `none`
standing for a thrown call (the entry is skipped). -/
def getTokenBalances (resp : IndexerResponse RawTokenTx)
    (balanceOf : String → Option Nat) : List TokenHolding :=
  match resp with
  | .failure _ => []
  | .success data =>
    if data.status ≠ "1" then []
    else
      let tokens := uniqueTokens data.result
      let tokensWithBalances := (tokens.take 10).filterMap (fun token =>
        match balanceOf token.contractAddress with
        | none => none
        | some balance =>
          if 0 < balance then
            some { contractAddress := token.contractAddress
                   name := token.name
                   symbol := token.symbol
                   decimals := token.decimals
                   balance := toFixed4 (displayScaled4 balance token.decimals)
                   rawBalance := balance }
          else none)
      List.insertionSort tokenGE tokensWithBalances

/-- Embeds `getENSName` from `src/js/web3-service.js`.  The pair's second
component records whether `provider.lookupAddress` was reached at all; the
first is the returned name (`none` on a non-mainnet network or a failure). -/
def getENSName (network : String) (lookupAddress : Except String (Option String)) :
    Option String × Bool :=
  if network ≠ "mainnet" then (none, false)
  else
    match lookupAddress with
    | .ok ensName => (ensName, true)
    | .error _ => (none, true)

/-- Return shape of `getWalletInfo`. -/
structure WalletInfo where
  address : String
  balance : String
  balanceWei : String
  txCount : Nat
  blockNumber : Nat
deriving DecidableEq

/-- Embeds `getWalletInfo` from `src/js/web3-service.js`.  The three provider
calls are passed as their outcomes; any failure is rewrapped by the `catch`
block. -/
def getWalletInfo (address : String) (balanceRes txCountRes blockRes : Except String Nat) :
    Except String WalletInfo :=
  let attempt : Except String WalletInfo := do
    let balanceWei ← balanceRes
    let txCount ← txCountRes
    let blockNumber ← blockRes
    pure { address
           balance := toFixed4 (displayScaled4 balanceWei 18) ++ " ETH"
           balanceWei := Nat.repr balanceWei
           txCount
           blockNumber }
  match attempt with
  | .ok w => .ok w
  | .error e => .error ("Failed to fetch wallet data: " ++ e)

/-- Raw record of the Etherscan `getsourcecode` action. -/
structure RawSourceRecord where
  ContractName : String
  CompilerVersion : String
  SourceCode : String
  ABI : String
  ConstructorArguments : String
deriving DecidableEq

/-- Return shape of `getContractInfo`; `none` models the `null` fields. -/
structure ContractInfo where
  address : String
  name : String
  compiler : String
  verified : Bool
  abi : Option String
  sourceCode : Option String
  constructorArguments : Option String
deriving DecidableEq

/-- Embeds `getContractInfo` from `src/js/web3-service.js`: a `getCode` probe
(outcome passed in), the `"0x"` guard, then the indexer `getsourcecode`
lookup, whose failures are rethrown by the outer `catch`. -/
def getContractInfo (address : String) (getCodeRes : Except String String)
    (srcResp : IndexerResponse RawSourceRecord) : Except String ContractInfo :=
  match getCodeRes with
  | .error e => .error e
  | .ok code =>
    if code = "0x" then
      .error "This address is not a smart contract (no code deployed)"
    else
      match srcResp with
      | .failure e => .error e
      | .success data =>
        if data.status ≠ "1" then .error "Failed to fetch contract information"
        else
          match data.result.head? with
          | none => .error "Failed to fetch contract information"
          | some contractData =>
            .ok { address
                  name := if contractData.ContractName = "" then "Unknown"
                          else contractData.ContractName
                  compiler := if contractData.CompilerVersion = "" then "Unknown"
                              else contractData.CompilerVersion
                  verified := contractData.SourceCode != "" &&
                              contractData.SourceCode != "0x"
                  abi := if contractData.ABI ≠ "Contract source code not verified"
                         then some contractData.ABI else none
                  sourceCode := if contractData.SourceCode = "" then none
                                else some contractData.SourceCode
                  constructorArguments := if contractData.ConstructorArguments = ""
                                          then none
                                          else some contractData.ConstructorArguments }

/-- Return shape of `getNFTInfo`. -/
structure NFTInfo where
  address : String
  name : String
  symbol : String
  totalSupply : String
  type : String
deriving DecidableEq

/-- Embeds `getNFTInfo` from `src/js/web3-service.js`: the `getCode` probe and
`"0x"` guard, then three independently wrapped read-only calls, each falling
back to `"Unknown"` on a revert or decode failure. -/
def getNFTInfo (address : String) (getCodeRes : Except String String)
    (nameRes symbolRes : Except String String)
    (totalSupplyRes : Except String Nat) : Except String NFTInfo :=
  match getCodeRes with
  | .error e => .error e
  | .ok code =>
    if code = "0x" then
      .error "This address is not a smart contract"
    else
      .ok { address
            name := match nameRes with
                    | .ok n => n
                    | .error _ => "Unknown"
            symbol := match symbolRes with
                      | .ok s => s
                      | .error _ => "Unknown"
            totalSupply := match totalSupplyRes with
                           | .ok n => Nat.repr n
                           | .error _ => "Unknown"
            type := "ERC-721" }

/-- Mutable fields of the `Web3Service` singleton.  Keys read from
`localStorage` are `none` when absent; `provider` holds the connection URL
once a `JsonRpcProvider` has been constructed. -/
structure Web3ServiceState where
  provider : Option String
  network : String
  alchemyKey : Option String
  etherscanKey : Option String
deriving DecidableEq

/-- JavaScript truthiness of a `string | null` value: `null` and the empty
string are falsy. -/
def jsTruthyStr : Option String → Bool
  | none => false
  | some s => s != ""

/-- Embeds `hasApiKeys`: `this.alchemyKey && this.etherscanKey` as a truth
value. -/
def hasApiKeys (st : Web3ServiceState) : Bool :=
  jsTruthyStr st.alchemyKey && jsTruthyStr st.etherscanKey

/-- Provider endpoint URL built by `initialize`; interpolating `null` would
produce the literal text "null". -/
def alchemyUrl (st : Web3ServiceState) : String :=
  "https://eth-" ++ st.network ++ ".g.alchemy.com/v2/" ++
    (match st.alchemyKey with
     | some k => k
     | none => "null")

/-- Embeds `initialize` from `src/js/web3-service.js`.  Returns the call's
outcome together with the updated service state; `getNetworkRes` is the
outcome of the connection test.  When the key check fails the error is thrown
before `this.provider` is assigned. -/
def initService (st : Web3ServiceState) (getNetworkRes : Except String String) :
    Except String Bool × Web3ServiceState :=
  if hasApiKeys st = false then
    (.error "Please configure your API keys in Settings (⚙️ button)", st)
  else
    let connected : Web3ServiceState := { st with provider := some (alchemyUrl st) }
    match getNetworkRes with
    | .ok _ => (.ok true, connected)
    | .error e => (.error e, connected)

/-- Report assembled by `analyzeWallet` in the UI module: the spread of
`getWalletInfo` plus the ENS name, transactions, tokens and the derived
`firstTx`. -/
structure WalletReport where
  address : String
  balance : String
  balanceWei : String
  txCount : Nat
  blockNumber : Nat
  ensName : Option String
  transactions : List TxRecord
  tokens : List TokenHolding
  firstTx : Option Nat
deriving DecidableEq

/-- Embeds `analyzeWallet` from the UI module: `getWalletInfo` is awaited
first (its failure aborts the analysis), then the three degradable lookups,
then `firstTx` is taken from the oldest fetched transaction. -/
def analyzeWallet (address : String)
    (balanceRes txCountRes blockRes : Except String Nat)
    (txResp : IndexerResponse RawTx)
    (tokResp : IndexerResponse RawTokenTx)
    (balanceOf : String → Option Nat)
    (network : String)
    (lookupAddress : Except String (Option String)) :
    Except String WalletReport :=
  match getWalletInfo address balanceRes txCountRes blockRes with
  | .error e => .error e
  | .ok walletInfo =>
    let transactions := getRecentTransactions txResp
    let tokens := getTokenBalances tokResp balanceOf
    let ensName := (getENSName network lookupAddress).1
    .ok { address := walletInfo.address
          balance := walletInfo.balance
          balanceWei := walletInfo.balanceWei
          txCount := walletInfo.txCount
          blockNumber := walletInfo.blockNumber
          ensName
          transactions
          tokens
          firstTx := match transactions.getLast? with
                     | some tx => some tx.timestamp
                     | none => none }

/-- Embeds `analyzeContract` from the UI module: a pass-through to
`getContractInfo`. -/
def analyzeContract (address : String) (getCodeRes : Except String String)
    (srcResp : IndexerResponse RawSourceRecord) : Except String ContractInfo :=
  getContractInfo address getCodeRes srcResp

/-- Embeds `analyzeNFT` from the UI module: a pass-through to `getNFTInfo`. -/
def analyzeNFT (address : String) (getCodeRes : Except String String)
    (nameRes symbolRes : Except String String)
    (totalSupplyRes : Except String Nat) : Except String NFTInfo :=
  getNFTInfo address getCodeRes nameRes symbolRes totalSupplyRes

/-- Duck-typed `data` object passed to `generateAIPrompt`: the union of the
fields the three template branches read.  Fields a branch does not read are
simply ignored, as in the JavaScript. -/
structure AnalysisData where
  address : String
  balance : String
  txCount : Nat
  firstTx : Option Nat
  tokens : Option (List TokenHolding)
  transactions : Option (List TxRecord)
  name : String
  symbol : String
  totalSupply : String
  verified : Bool
deriving DecidableEq

/-- JavaScript `type.toUpperCase()` for the ASCII mode names. -/
def jsToUpperCase (s : String) : String :=
  s.map Char.toUpper

/-- Rendering of `${data.firstTx || 'Unknown'}`: both `null` and the falsy
number `0` fall back to the placeholder. -/
def firstTxDisplay : Option Nat → String
  | none => "Unknown"
  | some n => if n = 0 then "Unknown" else Nat.repr n

/-- One line of the token-holdings block of the wallet prompt. -/
def tokenLine (token : TokenHolding) : String :=
  "- **" ++ token.name ++ " (" ++ token.symbol ++ ")**: " ++ token.balance

/-- Token-holdings block: `data.tokens && data.tokens.length > 0` guards the
mapped list, else the placeholder line. -/
def tokensBlock : Option (List TokenHolding) → String
  | some tokens =>
      if tokens.length > 0 then
        String.intercalate "\n" (tokens.map tokenLine)
      else "No ERC-20 tokens detected"
  | none => "No ERC-20 tokens detected"

/-- One numbered line of the recent-transaction excerpt. -/
def txLine (p : Nat × TxRecord) : String :=
  Nat.repr (p.1 + 1) ++ ". Hash: " ++ p.2.hash ++ ", Value: " ++ p.2.value ++
    ", To: " ++ p.2.toAddr

/-- Recent-transaction excerpt: `data.transactions` is truthiness-checked
(an empty array is truthy and joins to the empty string), then capped at five
entries. -/
def transactionsBlock : Option (List TxRecord) → String
  | some txs => String.intercalate "\n" ((txs.take 5).enum.map txLine)
  | none => "No recent transactions available"

/-- Embeds `generateAIPrompt` from `docs/utils/helpers.js`.  The timestamp the
source takes from `new Date().toISOString()` is passed explicitly so the
formatter is a pure function of its inputs. -/
def generateAIPrompt (data : AnalysisData) (type : String) (timestamp : String) :
    String :=
  let header :=
    "# Blockchain Intelligence Analysis Request\n\n**Analysis Type:** " ++
    jsToUpperCase type ++ "\n**Generated:** " ++ timestamp ++
    "\n**Network:** Ethereum\n\n---\n\n## Target Information\n\n"
  let body :=
    if type = "wallet" then
      "**Address:** " ++ data.address ++
      "\n**ETH Balance:** " ++ data.balance ++
      "\n**Transaction Count:** " ++ Nat.repr data.txCount ++
      "\n**First Activity:** " ++ firstTxDisplay data.firstTx ++
      "\n\n## ERC-20 Token Holdings\n\n" ++ tokensBlock data.tokens ++
      "\n\n## Analysis Tasks\n\nPlease analyze this Ethereum wallet and provide insights on:\n\n" ++
      "1. **Activity Patterns**: Analyze transaction frequency, timing, and patterns\n" ++
      "2. **Fund Flow**: Identify major inflows/outflows and unusual transfers\n" ++
      "3. **Entity Classification**: Is this likely an exchange, individual, contract, or other entity?\n" ++
      "4. **Risk Assessment**: Flag any suspicious patterns or high-risk behaviors\n" ++
      "5. **Associated Addresses**: Identify frequently interacting addresses\n" ++
      "6. **Token Portfolio Analysis**: Evaluate the token holdings for diversification and risk\n" ++
      "7. **Wallet Behavior**: Based on tokens held, what type of investor/user is this?\n" ++
      "\n## Recent Transaction Context\n\n" ++ transactionsBlock data.transactions ++
      "\n\n"
    else if type = "contract" then
      "**Contract Address:** " ++ data.address ++
      "\n**Name:** " ++ (if data.name = "" then "Unknown" else data.name) ++
      "\n**Verified:** " ++ (if data.verified then "Yes" else "No") ++
      "\n\n## Analysis Tasks\n\nPlease analyze this smart contract and provide insights on:\n\n" ++
      "1. **Contract Purpose**: What does this contract do?\n" ++
      "2. **Security Assessment**: Are there any known vulnerabilities or red flags?\n" ++
      "3. **Usage Patterns**: How active is this contract?\n" ++
      "4. **Token Analysis**: If this is a token contract, analyze tokenomics\n" ++
      "5. **Upgrade Status**: Is this contract upgradeable? Who controls it?\n" ++
      "\n"
    else if type = "nft" then
      "**Collection Address:** " ++ data.address ++
      "\n**Name:** " ++ (if data.name = "" then "Unknown" else data.name) ++
      "\n**Symbol:** " ++ (if data.symbol = "" then "Unknown" else data.symbol) ++
      "\n**Total Supply:** " ++ (if data.totalSupply = "" then "Unknown" else data.totalSupply) ++
      "\n\n## Analysis Tasks\n\nPlease analyze this NFT collection and provide insights on:\n\n" ++
      "1. **Collection Overview**: Project background and legitimacy\n" ++
      "2. **Market Activity**: Trading volume, floor price trends\n" ++
      "3. **Holder Analysis**: Distribution of ownership, whale concentration\n" ++
      "4. **Rarity & Traits**: Notable trait distributions if available\n" ++
      "5. **Contract Security**: Is the contract safe? Any mint/transfer restrictions?\n" ++
      "\n"
    else ""
  let footer :=
    "\n---\n\n## Output Format\n\nPlease provide:\n" ++
    "1. **Executive Summary** (2-3 sentences)\n" ++
    "2. **Key Findings** (bullet points)\n" ++
    "3. **Risk Level** (Low/Medium/High with justification)\n" ++
    "4. **Recommendations** (actionable next steps)\n\n" ++
    "**Note:** This is an automated intelligence request. Focus on factual, evidence-based analysis."
  header ++ body ++ footer

/-- Claim C1: the prompt formatter is deterministic — two calls with the same
report data, mode and generation timestamp produce byte-identical strings,
since `generateAIPrompt` is a pure function of those inputs. -/
theorem generateAIPrompt_deterministic (data : AnalysisData) (type : String)
    (timestamp : String) :
    generateAIPrompt data type timestamp = generateAIPrompt data type timestamp :=
  rfl

/-- Token-transfer envelope with two distinct token contracts that will both
report the same balance, producing a tie in the holdings list. -/
def tiedTokenResp : IndexerResponse RawTokenTx :=
  .success
    ⟨"1", "OK",
      [⟨"0xaaaaaaaaaaaaaaaaaaaaaaaaaaaaaaaaaaaaaaaa", "TokenA", "TKA", 18⟩,
       ⟨"0xbbbbbbbbbbbbbbbbbbbbbbbbbbbbbbbbbbbbbbbb", "TokenB", "TKB", 18⟩]⟩

/-- Balance oracle answering one whole token for every contract. -/
def tiedBalanceOf : String → Option Nat := fun _ => some (10 ^ 18)

/-- Claim C2 counterexample: with two distinct tokens of equal balance the
holdings list is not sorted strictly descending by decimal balance — the
comparator `parseFloat(b.balance) - parseFloat(a.balance)` leaves ties, so
only non-strict descending order holds. -/
theorem getTokenBalances_not_strictly_sorted :
    ¬ List.Pairwise
        (fun a b : TokenHolding => parseFixed4 b.balance < parseFixed4 a.balance)
        (getTokenBalances tiedTokenResp tiedBalanceOf) := by
  decide

/-- Claim C2 (amended): for every upstream token-transfer response and balance
oracle, every entry of the holdings list has strictly positive raw balance,
the list is sorted descending (non-strictly: ties between equal decimal
balances are allowed) by decimal balance, and its length is at most 10. -/
theorem getTokenBalances_sorted_cap_positive (resp : IndexerResponse RawTokenTx)
    (balanceOf : String → Option Nat) :
    (∀ t ∈ getTokenBalances resp balanceOf, 0 < t.rawBalance) ∧
    List.Sorted tokenGE (getTokenBalances resp balanceOf) ∧
    (getTokenBalances resp balanceOf).length ≤ 10 := by
  rcases resp with msg | data
  · exact ⟨by simp [getTokenBalances], by simp [getTokenBalances, List.Sorted],
           by simp [getTokenBalances]⟩
  · simp only [getTokenBalances]
    split_ifs with hst
    · exact ⟨by simp, by simp [List.Sorted], by simp⟩
    · refine ⟨?_, List.sorted_insertionSort tokenGE _, ?_⟩
      · intro t ht
        rw [List.mem_insertionSort] at ht
        obtain ⟨a, ha, hfa⟩ := List.mem_filterMap.mp ht
        cases hbal : balanceOf a.contractAddress with
        | none => simp [hbal] at hfa
        | some balance =>
          rw [hbal] at hfa
          by_cases hb : 0 < balance
          · simp only [hb, if_pos] at hfa
            obtain rfl := Option.some.inj hfa
            exact hb
          · simp [hb] at hfa
      · rw [List.length_insertionSort]
        exact le_trans (List.length_filterMap_le _ _)
          (le_trans (List.length_take_le _ _) (le_refl 10))

/-- Witness for the amended claim C2, applying it at the concrete tied
response and discharging the membership hypothesis at the first entry. -/
theorem getTokenBalances_sorted_cap_positive_witness :
    List.Sorted tokenGE (getTokenBalances tiedTokenResp tiedBalanceOf) ∧
    (getTokenBalances tiedTokenResp tiedBalanceOf).length ≤ 10 ∧
    0 < ({ contractAddress := "0xaaaaaaaaaaaaaaaaaaaaaaaaaaaaaaaaaaaaaaaa",
           name := "TokenA", symbol := "TKA", decimals := 18,
           balance := "1.0000", rawBalance := 10 ^ 18 } : TokenHolding).rawBalance := by
  have h := getTokenBalances_sorted_cap_positive tiedTokenResp tiedBalanceOf
  exact ⟨h.2.1, h.2.2, h.1 _ (by decide)⟩

/-- Claim C3: when the transaction lookup fails in transport or the indexer
signals a soft failure (`status` not `"1"`), both collapse to the same empty
list, and a wallet analysis whose defining lookups succeeded still returns a
report with no transactions and an absent first-activity timestamp. -/
theorem analyzeWallet_soft_failure_empty
    (address : String) (balanceRes txCountRes blockRes : Except String Nat)
    (w : WalletInfo)
    (hw : getWalletInfo address balanceRes txCountRes blockRes = .ok w)
    (txResp : IndexerResponse RawTx)
    (htx : (∃ m, txResp = .failure m) ∨
           (∃ env, txResp = .success env ∧ env.status ≠ "1"))
    (tokResp : IndexerResponse RawTokenTx) (balanceOf : String → Option Nat)
    (network : String) (lookupAddress : Except String (Option String)) :
    getRecentTransactions txResp = [] ∧
    ∃ r, analyzeWallet address balanceRes txCountRes blockRes txResp tokResp
           balanceOf network lookupAddress = .ok r ∧
         r.transactions = [] ∧ r.firstTx = none := by
  have hempty : getRecentTransactions txResp = [] := by
    rcases htx with ⟨m, rfl⟩ | ⟨env, rfl, hst⟩
    · rfl
    · simp [getRecentTransactions, hst]
  refine ⟨hempty, ?_⟩
  simp only [analyzeWallet, hw, hempty]
  exact ⟨_, rfl, rfl, rfl⟩

/-- Witness for claim C3 at a concrete wallet whose indexer call failed in
transport. -/
theorem analyzeWallet_soft_failure_empty_witness :
    getRecentTransactions (.failure "timeout") = [] ∧
    ∃ r, analyzeWallet "0xd8dA6BF26964aF9D7eEd9e03E53415D37aA96045"
           (.ok 1500000000000000000) (.ok 5) (.ok 19000000)
           (.failure "timeout") (.failure "timeout") (fun _ => none)
           "mainnet" (.ok none) = .ok r ∧
         r.transactions = [] ∧ r.firstTx = none :=
  analyzeWallet_soft_failure_empty
    "0xd8dA6BF26964aF9D7eEd9e03E53415D37aA96045"
    (.ok 1500000000000000000) (.ok 5) (.ok 19000000)
    { address := "0xd8dA6BF26964aF9D7eEd9e03E53415D37aA96045",
      balance := "1.5000 ETH", balanceWei := "1500000000000000000",
      txCount := 5, blockNumber := 19000000 }
    rfl
    (.failure "timeout") (Or.inl ⟨"timeout", rfl⟩)
    (.failure "timeout") (fun _ => none) "mainnet" (.ok none)

/-- Claim C4: when `getCode` answers `"0x"` (no deployed code), both the
contract-mode and the NFT-mode analyses fail with their fatal
"not a smart contract" errors. -/
theorem contract_nft_not_a_contract_fatal (address : String)
    (getCodeRes : Except String String) (h : getCodeRes = .ok "0x")
    (srcResp : IndexerResponse RawSourceRecord)
    (nameRes symbolRes : Except String String)
    (totalSupplyRes : Except String Nat) :
    analyzeContract address getCodeRes srcResp =
      .error "This address is not a smart contract (no code deployed)" ∧
    analyzeNFT address getCodeRes nameRes symbolRes totalSupplyRes =
      .error "This address is not a smart contract" := by
  subst h
  exact ⟨rfl, rfl⟩

/-- Witness for claim C4 at a concrete address with empty code. -/
theorem contract_nft_not_a_contract_fatal_witness :
    analyzeContract "0xd8dA6BF26964aF9D7eEd9e03E53415D37aA96045" (.ok "0x")
      (.failure "unused") =
      .error "This address is not a smart contract (no code deployed)" ∧
    analyzeNFT "0xd8dA6BF26964aF9D7eEd9e03E53415D37aA96045" (.ok "0x")
      (.ok "Name") (.ok "SYM") (.ok 100) =
      .error "This address is not a smart contract" :=
  contract_nft_not_a_contract_fatal "0xd8dA6BF26964aF9D7eEd9e03E53415D37aA96045"
    (.ok "0x") rfl (.failure "unused") (.ok "Name") (.ok "SYM") (.ok 100)

/-- Claim C5: converting the smallest-unit integer 1500000000000000000 at 18
decimal places yields the display balance `"1.5000 ETH"`, while the raw
integer string reported alongside it is the input integer unchanged. -/
theorem getWalletInfo_normalization_example :
    getWalletInfo "0xd8dA6BF26964aF9D7eEd9e03E53415D37aA96045"
      (.ok 1500000000000000000) (.ok 5) (.ok 19000000) =
    .ok { address := "0xd8dA6BF26964aF9D7eEd9e03E53415D37aA96045",
          balance := "1.5000 ETH", balanceWei := "1500000000000000000",
          txCount := 5, blockNumber := 19000000 } := by
  rfl

/-- Claim C7: on any network other than the main network, reverse-name
resolution returns absent without reaching the provider lookup at all, and a
failing lookup on the main network also returns absent. -/
theorem getENSName_non_mainnet_absent (network : String)
    (lookupAddress : Except String (Option String)) (e : String)
    (h : network ≠ "mainnet") :
    getENSName network lookupAddress = (none, false) ∧
    (getENSName "mainnet" (.error e)).1 = none := by
  exact ⟨by simp [getENSName, h], rfl⟩

/-- Witness for claim C7 on a concrete test network. -/
theorem getENSName_non_mainnet_absent_witness :
    getENSName "sepolia" (.ok (some "vitalik.eth")) = (none, false) ∧
    (getENSName "mainnet" (.error "timeout")).1 = none :=
  getENSName_non_mainnet_absent "sepolia" (.ok (some "vitalik.eth")) "timeout"
    (by decide)

/-- Claim C8: when either API key is absent from configuration, `initialize`
fails with the configuration error and leaves the provider connection
unestablished (the provider field is untouched). -/
theorem initService_missing_keys_fatal (st : Web3ServiceState)
    (getNetworkRes : Except String String)
    (h : st.alchemyKey = none ∨ st.etherscanKey = none) :
    (initService st getNetworkRes).1 =
      .error "Please configure your API keys in Settings (⚙️ button)" ∧
    (initService st getNetworkRes).2.provider = st.provider := by
  have hk : hasApiKeys st = false := by
    rcases h with h | h <;> simp [hasApiKeys, jsTruthyStr, h]
  simp [initService, hk]

/-- Witness for claim C8 on a fresh service with no provider key stored. -/
theorem initService_missing_keys_fatal_witness :
    (initService { provider := none, network := "mainnet", alchemyKey := none,
                   etherscanKey := some "key" } (.ok "mainnet")).1 =
      .error "Please configure your API keys in Settings (⚙️ button)" ∧
    (initService { provider := none, network := "mainnet", alchemyKey := none,
                   etherscanKey := some "key" } (.ok "mainnet")).2.provider = none :=
  initService_missing_keys_fatal
    { provider := none, network := "mainnet", alchemyKey := none,
      etherscanKey := some "key" } (.ok "mainnet") (Or.inl rfl)
